import Mathlib

/-!
# Verification of the ARM request instrumentation middleware and error classifiers

Shallow embedding of `pkg/middleware` (the `ArmRequestMetricPolicy` pipeline stage,
its transport/response error classifiers) and `pkg/errors` (the response-error
wrapper's message-extraction cascade and the exported error-classification
predicates) of the Azure/azure-sdk-for-go-extensions repository.

Modelling conventions:
* Go `nil`-able pointers/interfaces become `Option`.
* A Go `error` value becomes the inductive `GoError`; `errors.Is`/`errors.As`
  walk the linear `wrap` chain exactly as Go's unwrap loop does.
* Calls into external libraries (azcore's `runtime.NewResponseError` and
  `arm.ParseResourceID`, Go's `encoding/json`, `regexp`, `strconv.Unquote`)
  are outside this repository; their outcomes are carried as data (a field of
  the modelled response, or an oracle record of functions of the body bytes),
  so every theorem quantifies over all possible behaviours of those externals.
* Wall-clock latencies and the `httptrace` connection-tracking callbacks are
  real-time/concurrency artifacts and are not part of the functional model.
-/

namespace AzExt

/-! ## middleware: constants and core data (src/unnamed/part_004, lines 20-54) -/

/-- Go: `type ArmErrorCode string`. -/
abbrev ArmErrorCode := String

def ArmErrorCodeCastToArmResponseErrorFailed : ArmErrorCode := "CastToArmResponseErrorFailed"

def ArmErrorCodeTransportError : ArmErrorCode := "TransportError"

def ArmErrorCodeUnexpectedTransportError : ArmErrorCode := "UnexpectedTransportError"

def ArmErrorCodeContextCanceled : ArmErrorCode := "ContextCanceled"

def ArmErrorCodeContextDeadlineExceeded : ArmErrorCode := "ContextDeadlineExceeded"

def headerKeyRequestID : String := "X-Ms-Client-Request-Id"

def headerKeyCorrelationID : String := "X-Ms-Correlation-Request-id"

/-- Go: `type ArmError struct { Code ArmErrorCode; Message string }`. -/
structure ArmError where
  code : ArmErrorCode
  message : String
deriving DecidableEq, Repr

/-- Model of the external `*azcore.ResponseError` as the repository consumes it:
its `ErrorCode` and `StatusCode` fields and the string its `Error()` method
returns (azcore builds that string outside this repository, so it is data). -/
structure AzcoreResponseError where
  errorCode : String
  statusCode : Nat
  errorText : String
deriving DecidableEq, Repr

/-- Model of a Go `error` value (non-nil). `wrap msg inner` is an error whose
`Error()` text is `msg` and whose `Unwrap()` is `inner` (e.g. built with
`fmt.Errorf("...: %w", inner)`); `contextCanceled` / `contextDeadlineExceeded`
are the two `context` package sentinel errors; `responseError` is a
`*azcore.ResponseError`; `simple` is any other leaf error. -/
inductive GoError where
  | contextCanceled
  | contextDeadlineExceeded
  | responseError (re : AzcoreResponseError)
  | simple (msg : String)
  | wrap (msg : String) (inner : GoError)
deriving DecidableEq, Repr

/-- The `Error()` method of a Go error value. The two context sentinels carry
their fixed texts from the Go standard library. -/
def errText : GoError → String
  | .contextCanceled => "context canceled"
  | .contextDeadlineExceeded => "context deadline exceeded"
  | .responseError re => re.errorText
  | .simple msg => msg
  | .wrap msg _ => msg

/-- Go: `errors.Is(err, context.Canceled)` — unwrap until the sentinel is found. -/
def errorsIsCanceled : GoError → Bool
  | .contextCanceled => true
  | .wrap _ inner => errorsIsCanceled inner
  | _ => false

/-- Go: `errors.Is(err, context.DeadlineExceeded)`. -/
def errorsIsDeadlineExceeded : GoError → Bool
  | .contextDeadlineExceeded => true
  | .wrap _ inner => errorsIsDeadlineExceeded inner
  | _ => false

/-- Go: `errors.As(err, &respErr)` with `respErr *azcore.ResponseError` —
unwrap until a `*azcore.ResponseError` is found, returning it. -/
def errorsAsResponseError : GoError → Option AzcoreResponseError
  | .responseError re => some re
  | .wrap _ inner => errorsAsResponseError inner
  | _ => none

/-! ## middleware: parseTransportError (src/unnamed/part_004, lines 258-269) -/

/-- Go `parseTransportError(err error) *ArmError` (src/unnamed/part_004:258):
nil in, nil out; `errors.Is(err, context.Canceled)` first, then
`errors.Is(err, context.DeadlineExceeded)`, else a generic transport error;
the message is always the error's own `Error()` text. -/
def parseTransportError : Option GoError → Option ArmError
  | none => none
  | some err =>
    if errorsIsCanceled err then
      some ⟨ArmErrorCodeContextCanceled, errText err⟩
    else if errorsIsDeadlineExceeded err then
      some ⟨ArmErrorCodeContextDeadlineExceeded, errText err⟩
    else
      some ⟨ArmErrorCodeTransportError, errText err⟩

/-! ## middleware: requests, responses, parseArmErrorFromResponse -/

/-- The slice of `net/url.URL` the policy reads: only `Path` matters here
(`Do` guards on the URL pointer being non-nil and parses `URL.Path`). -/
structure Url where
  path : String
deriving DecidableEq, Repr

/-- The slice of `*http.Request` the policy reads: its URL (nil-able) and its
headers. Headers are modelled as an association list already in the canonical
form `http.Header` stores; `headerGet` is `Header.Get` (empty string when the
key is absent). -/
structure HttpRequest where
  url : Option Url
  headers : List (String × String)
deriving DecidableEq, Repr

/-- Go `http.Header.Get`: first value for the key, `""` when absent. -/
def headerGet (hs : List (String × String)) (key : String) : String :=
  match hs.lookup key with
  | some v => v
  | none => ""

/-- The slice of `*http.Response` the policy reads: `StatusCode`, the bound
`Request` (nil-able), and — because azcore is outside this repository — the
error value that the external call `runtime.NewResponseError(resp)` would
produce for this response, carried as data (`newRespError`). Theorems that
quantify over `Response` therefore cover every possible azcore behaviour. -/
structure Response where
  statusCode : Nat
  request : Option HttpRequest
  newRespError : GoError
deriving DecidableEq, Repr

/-- Go `parseArmErrorFromResponse(resp *http.Response) *ArmError`
(src/unnamed/part_004:238): nil response is a transport-contract violation;
a status above 399 is classified through `runtime.NewResponseError` +
`errors.As`, falling back to a cast-failure diagnostic; otherwise success
(nil). -/
def parseArmErrorFromResponse : Option Response → Option ArmError
  | none => some ⟨ArmErrorCodeUnexpectedTransportError, "nil response"⟩
  | some resp =>
    if 399 < resp.statusCode then
      match errorsAsResponseError resp.newRespError with
      | some respErr => some ⟨respErr.errorCode, respErr.errorText⟩
      | none =>
        some ⟨ArmErrorCodeCastToArmResponseErrorFailed,
          "Response body is not in ARM error form: \x7berror:\x7bcode, message\x7d\x7d: "
            ++ errText resp.newRespError⟩
    else
      none

/-! ## middleware: the policy and its Do method (src/unnamed/part_004, lines 159-236) -/

/-- Model of the structured resource identity azcore's `arm.ResourceID` carries
(the subset the spec names: subscription, resource group, type, name). -/
structure ArmResourceId where
  subscriptionId : String
  resourceGroupName : String
  resourceType : String
  name : String
deriving DecidableEq, Repr

/-- Modelled from the spec: the external azcore call `arm.ParseResourceID`
(outside this repository). Per spec section 4.4 it parses a path of the form
`/subscriptions/S/resourceGroups/R/providers/P/T/N` into the structured
identity, and any non-matching or malformed path yields "identity
unavailable" (`none`), a recoverable condition. No theorem below depends on
which paths parse. -/
def parseResourceID (path : String) : Option ArmResourceId :=
  match path.splitOn "/" with
  | "" :: "subscriptions" :: s :: "resourceGroups" :: r :: "providers" :: p :: t :: n :: _ =>
    some ⟨s, r, p ++ "/" ++ t, n⟩
  | _ => none

/-- Go: `type RequestInfo struct { Request *http.Request; ArmResId *arm.ResourceID }`,
built by `newRequestInfo` with the (non-nil) raw request. -/
structure RequestInfo where
  request : HttpRequest
  armResId : Option ArmResourceId
deriving DecidableEq, Repr

/-- Go: `type ResponseInfo struct {...}` (src/unnamed/part_004:47). `Latency`
(wall clock) and `ConnTracking` (the concurrent tracker) are real-time /
concurrency artifacts and are not part of the functional model. -/
structure ResponseInfo where
  response : Option Response
  error : Option ArmError
  requestId : String
  correlationId : String
deriving DecidableEq, Repr

/-- One invocation of the external collector interface
(`ArmRequestMetricCollector.RequestStarted` / `.RequestCompleted`). -/
inductive CollectorEvent where
  | started (info : RequestInfo)
  | completed (info : RequestInfo) (respInfo : ResponseInfo)
deriving DecidableEq, Repr

/-- Go: `type ArmRequestMetricPolicy struct { Collector ArmRequestMetricCollector }`.
The collector's behaviour is external; only its nil-ness matters to the
policy, so it is modelled as `Option Unit`. -/
structure ArmRequestMetricPolicy where
  collector : Option Unit
deriving DecidableEq, Repr

/-- Go `(p *ArmRequestMetricPolicy) requestStarted` (src/unnamed/part_004:225):
the "shortcut function to handle nil collector". Returns the list of
collector invocations it performs. -/
def requestStarted (p : ArmRequestMetricPolicy) (iReq : RequestInfo) : List CollectorEvent :=
  match p.collector with
  | some _ => [.started iReq]
  | none => []

/-- Go `(p *ArmRequestMetricPolicy) requestCompleted` (src/unnamed/part_004:232). -/
def requestCompleted (p : ArmRequestMetricPolicy) (iReq : RequestInfo)
    (iResp : ResponseInfo) : List CollectorEvent :=
  match p.collector with
  | some _ => [.completed iReq iResp]
  | none => []

/-- The outcome of the downstream `Next()` call, which is an input to the model:
either it returns a `(resp, err)` pair (each side nil-able), or it panics and
unwinds through this policy. -/
inductive NextOutcome where
  | ok (resp : Option Response) (err : Option GoError)
  | panicked
deriving DecidableEq, Repr

/-- What `Do` hands back to its caller for a given downstream outcome: the pair
itself, or (`none`) nothing because the panic keeps unwinding past `Do`. -/
def nextReturn : NextOutcome → Option (Option Response × Option GoError)
  | .ok resp err => some (resp, err)
  | .panicked => none

/-- The body of the deferred function in `Do` (src/unnamed/part_004:194-218)
minus the collector call: builds the `ResponseInfo` from the captured `resp`
and `reqErr` variables — transport-error classification when `reqErr` is
non-nil, response classification otherwise, then the request-id /
correlation-id headers read from the response's bound request when present. -/
def deferredResponseInfo (resp : Option Response) (reqErr : Option GoError) : ResponseInfo :=
  let respInfo : ResponseInfo :=
    { response := resp, error := none, requestId := "", correlationId := "" }
  let respInfo :=
    if reqErr.isSome then
      { respInfo with error := parseTransportError reqErr }
    else
      { respInfo with error := parseArmErrorFromResponse resp }
  match resp with
  | some r =>
    match r.request with
    | some boundReq =>
      { respInfo with
          requestId := headerGet boundReq.headers headerKeyRequestID,
          correlationId := headerGet boundReq.headers headerKeyCorrelationID }
    | none => respInfo
  | none => respInfo

/-- Result of one `Do` invocation: the trace of collector invocations, and the
value returned to the caller (`none` when a downstream panic unwound through). -/
structure DoResult where
  events : List CollectorEvent
  ret : Option (Option Response × Option GoError)
deriving DecidableEq, Repr

/-- Go `(p *ArmRequestMetricPolicy) Do(req *policy.Request)`
(src/unnamed/part_004:165). `raw` is `req.Raw()` (nil-able). A nil raw
request or nil URL passes straight through to `req.Next()`. Otherwise the
resource id is parsed (a failure is swallowed: the nil id is used), the
start notification fires, the downstream stage runs, and the deferred
finalization always fires exactly once — when the downstream stage panics,
`resp`/`reqErr` still hold their zero values (nil, nil), the deferred
function runs on those, and the panic continues unwinding (`ret := none`). -/
def policyDo (p : ArmRequestMetricPolicy) (raw : Option HttpRequest)
    (next : NextOutcome) : DoResult :=
  match raw with
  | none => { events := [], ret := nextReturn next }
  | some httpReq =>
    match httpReq.url with
    | none => { events := [], ret := nextReturn next }
    | some u =>
      let armResId := parseResourceID u.path
      let requestInfo : RequestInfo := { request := httpReq, armResId := armResId }
      let startEvents := requestStarted p requestInfo
      match next with
      | .ok resp reqErr =>
        { events := startEvents ++ requestCompleted p requestInfo (deferredResponseInfo resp reqErr),
          ret := some (resp, reqErr) }
      | .panicked =>
        { events := startEvents ++ requestCompleted p requestInfo (deferredResponseInfo none none),
          ret := none }

/-! ## errors: message extraction (src/pkg/errors/response_error_wrapper.go) -/

/-- Go: `type AzureError struct { Code, Message string; Details []interface\x7b\x7d }`
(the unwrapped error-body shape). `Details` is never read by the code under
verification and is omitted. -/
structure AzureError where
  code : String
  message : String
deriving DecidableEq, Repr

/-- Go: `type AzureErrorResponse struct { Error AzureError }` (the wrapped
`error` envelope shape). -/
structure AzureErrorResponse where
  error : AzureError
deriving DecidableEq, Repr

/-- Go `jsonUnescaper = strings.NewReplacer("\n", " ", "\t", " ", "\r", " ")`
(src/pkg/errors/response_error_wrapper.go:16): every embedded newline, tab or
carriage-return character becomes a single space. -/
def jsonUnescaperReplace (s : String) : String :=
  ⟨s.data.map fun c => if c == '\n' || c == '\t' || c == '\r' then ' ' else c⟩

/-- The outcomes, on a given byte buffer, of the external Go standard-library
calls `extractErrorMessage` makes. `encoding/json`, `regexp` and `strconv`
are outside this repository, so their results are carried as functions of
the body bytes; every theorem below quantifies over all oracles.
* `unmarshalWrapped s`: `json.Unmarshal(s, &AzureErrorResponse)` — `none`
  means the unmarshal returned an error.
* `unmarshalUnwrapped s`: `json.Unmarshal(s, &AzureError)`.
* `regexFindMessageToken s`: the first capture group of
  `errorMessageRegex = "message"\s*:\s*("(?:[^"\\]|\\.)*")` on `s`
  (the quoted string literal, quotes included), `none` when there is no match.
* `unquote t`: `strconv.Unquote(t)` — `none` means it returned an error. -/
structure JsonOracle where
  unmarshalWrapped : String → Option AzureErrorResponse
  unmarshalUnwrapped : String → Option AzureError
  regexFindMessageToken : String → Option String
  unquote : String → Option String

/-- The state of `respErr.RawResponse.Body` as `extractErrorMessage` finds it:
a nil `Body`, a body whose `io.ReadAll` fails, or the buffered bytes. -/
inductive RawBody where
  | nilBody
  | readFails
  | bytes (s : String)
deriving DecidableEq, Repr

/-- The cascade of `extractErrorMessage` after the single `io.ReadAll`
(src/pkg/errors/response_error_wrapper.go:122-148), bytes already buffered:
1. wrapped unmarshal; accepted when it succeeds with a non-empty `Error.Code`,
   returning the (normalized) `Error.Message`;
2. otherwise unwrapped unmarshal; accepted when it succeeds with a non-empty
   `Code`, returning the (normalized) `Message`;
3. otherwise the regex scrape: when a `"message":"..."` token is found it is
   unquoted and normalized, the raw quoted token being returned when
   `strconv.Unquote` fails; with no match the result is `"UNAVAILABLE"`.
All three steps consult the same buffer `bodyBytes`. -/
def extractErrorMessageFromBytes (o : JsonOracle) (bodyBytes : String) : String :=
  let regexStep : String :=
    match o.regexFindMessageToken bodyBytes with
    | some tok =>
      match o.unquote tok with
      | none => tok
      | some unquoted => jsonUnescaperReplace unquoted
    | none => "UNAVAILABLE"
  let unwrappedStep : String :=
    match o.unmarshalUnwrapped bodyBytes with
    | some unwrappedResult =>
      if unwrappedResult.code = "" then regexStep
      else jsonUnescaperReplace unwrappedResult.message
    | none => regexStep
  match o.unmarshalWrapped bodyBytes with
  | some wrappedResult =>
    if wrappedResult.error.code = "" then unwrappedStep
    else jsonUnescaperReplace wrappedResult.error.message
  | none => unwrappedStep

/-- Go `extractErrorMessage(respErr *azcore.ResponseError) string`
(src/pkg/errors/response_error_wrapper.go:104). The input collapses the
guards the function performs: `none` models `RawResponse == nil`, otherwise
the body state. The second component counts how many times the body stream
is read (`io.ReadAll` calls). -/
def extractErrorMessage (o : JsonOracle) (rawResponse : Option RawBody) : String × Nat :=
  match rawResponse with
  | none => ("UNAVAILABLE", 0)
  | some .nilBody => ("UNAVAILABLE", 0)
  | some .readFails => ("UNAVAILABLE", 1)
  | some (.bytes bodyBytes) => (extractErrorMessageFromBytes o bodyBytes, 1)

/-! ## errors: classification predicates (src/pkg/errors/armerrors.go,
src/pkg/errors/consts.go, src/unnamed/part_005) -/

def ResourceNotFound : String := "ResourceNotFound"

def OperationNotAllowed : String := "OperationNotAllowed"

def ZoneAllocationFailed : String := "ZonalAllocationFailed"

def SubscriptionQuotaExceededTerm : String := "Family Cores quota"

def RegionalQuotaExceededTerm : String := "exceeding approved Total Regional Cores quota"

/-- Modelled from the spec: the remaining error-code / search-term constants of
the errors package are referenced by the sources provided (src/unnamed/part_005
and the tests) but their declaring file is not; their exact string values are
irrelevant to every theorem below, which never depends on them. -/
def AllocationFailed : String := "AllocationFailed"

def OverconstrainedAllocationRequest : String := "OverconstrainedAllocationRequest"

def OverconstrainedZonalAllocationRequest : String := "OverconstrainedZonalAllocationRequest"

def SKUNotAvailableErrorCode : String := "SkuNotAvailable"

def NicReservedForAnotherVM : String := "NicReservedForAnotherVm"

def LowPriorityQuotaExceededTerm : String := "exceeding approved LowPriorityCores quota"

def SKUFamilyQuotaExceededTerm : String := "Family Cores quota"

/-- Go `strings.Contains(s, sub)`. -/
def stringContains (s sub : String) : Bool :=
  sub = "" || (s.splitOn sub).length > 1

/-- Go `IsResponseError(err error) *azcore.ResponseError`
(src/pkg/errors/armerrors.go:26): `errors.As` into a `*azcore.ResponseError`,
guarded by `err != nil`; nil (or any chain holding no response error) gives
nil. The input `none` models a nil Go error. -/
def IsResponseError (err : Option GoError) : Option AzcoreResponseError :=
  match err with
  | none => none
  | some e => errorsAsResponseError e

/- Core matching logic (src/unnamed/part_005). -/

def isLowPriorityQuotaExceeded (code message : String) : Bool :=
  code = OperationNotAllowed && stringContains message LowPriorityQuotaExceededTerm

def isSKUFamilyQuotaExceeded (code message : String) : Bool :=
  code = OperationNotAllowed && stringContains message SKUFamilyQuotaExceededTerm

def isSubscriptionQuotaExceeded (code message : String) : Bool :=
  code = OperationNotAllowed && stringContains message SubscriptionQuotaExceededTerm

def isRegionalQuotaExceeded (code message : String) : Bool :=
  code = OperationNotAllowed && stringContains message RegionalQuotaExceededTerm

def isZonalAllocationFailed (code : String) : Bool :=
  code = ZoneAllocationFailed

def isAllocationFailed (code : String) : Bool :=
  code = AllocationFailed

def isOverconstrainedAllocationFailed (code : String) : Bool :=
  code = OverconstrainedAllocationRequest

def isOverconstrainedZonalAllocationFailed (code : String) : Bool :=
  code = OverconstrainedZonalAllocationRequest

def isSKUNotAvailable (code : String) : Bool :=
  code = SKUNotAvailableErrorCode

def isNicReservedForVM (code : String) : Bool :=
  code = NicReservedForAnotherVM

/- Exported predicates (src/pkg/errors/armerrors.go). Each one is
`azErr := IsResponseError(err); return azErr != nil && <condition on azErr>`;
the Go `azErr.Error()` text is the modelled `errorText` field. -/

def IsNotFoundErr (err : Option GoError) : Bool :=
  match IsResponseError err with
  | some azErr => azErr.statusCode = 404
  | none => false

def ZonalAllocationFailureOccurred (err : Option GoError) : Bool :=
  match IsResponseError err with
  | some azErr => isZonalAllocationFailed azErr.errorCode
  | none => false

def AllocationFailureOccurred (err : Option GoError) : Bool :=
  match IsResponseError err with
  | some azErr => isAllocationFailed azErr.errorCode
  | none => false

def OverconstrainedAllocationFailureOccurred (err : Option GoError) : Bool :=
  match IsResponseError err with
  | some azErr => isOverconstrainedAllocationFailed azErr.errorCode
  | none => false

def OverconstrainedZonalAllocationFailureOccurred (err : Option GoError) : Bool :=
  match IsResponseError err with
  | some azErr => isOverconstrainedZonalAllocationFailed azErr.errorCode
  | none => false

def SKUFamilyQuotaHasBeenReached (err : Option GoError) : Bool :=
  match IsResponseError err with
  | some azErr => isSKUFamilyQuotaExceeded azErr.errorCode azErr.errorText
  | none => false

def SubscriptionQuotaHasBeenReached (err : Option GoError) : Bool :=
  match IsResponseError err with
  | some azErr => isSubscriptionQuotaExceeded azErr.errorCode azErr.errorText
  | none => false

def RegionalQuotaHasBeenReached (err : Option GoError) : Bool :=
  match IsResponseError err with
  | some azErr => isRegionalQuotaExceeded azErr.errorCode azErr.errorText
  | none => false

def LowPriorityQuotaHasBeenReached (err : Option GoError) : Bool :=
  match IsResponseError err with
  | some azErr => isLowPriorityQuotaExceeded azErr.errorCode azErr.errorText
  | none => false

def IsNicReservedForAnotherVM (err : Option GoError) : Bool :=
  match IsResponseError err with
  | some azErr => isNicReservedForVM azErr.errorCode
  | none => false

def IsSKUNotAvailable (err : Option GoError) : Bool :=
  match IsResponseError err with
  | some azErr => isSKUNotAvailable azErr.errorCode
  | none => false

/-! ## Spec-side cascade definitions (for the refinement claim about
`extractErrorMessage`) and concrete oracles -/

/-- The extraction cascade exactly as the claim words it: the wrapped parse is
preferred, a JSON parse attempt counts only when it yields a NON-EMPTY
MESSAGE, and only when neither does is the regex scrape consulted; failing
that, `"UNAVAILABLE"`. -/
def extractErrorMessageClaimed (o : JsonOracle) (bodyBytes : String) : String :=
  let wrappedMsg : Option String :=
    match o.unmarshalWrapped bodyBytes with
    | some w => if w.error.message = "" then none else some (jsonUnescaperReplace w.error.message)
    | none => none
  let unwrappedMsg : Option String :=
    match o.unmarshalUnwrapped bodyBytes with
    | some u => if u.message = "" then none else some (jsonUnescaperReplace u.message)
    | none => none
  let regexMsg : Option String :=
    match o.regexFindMessageToken bodyBytes with
    | some tok =>
      match o.unquote tok with
      | some unquoted => some (jsonUnescaperReplace unquoted)
      | none => some tok
    | none => none
  (wrappedMsg.orElse fun _ => unwrappedMsg.orElse fun _ => regexMsg).getD "UNAVAILABLE"

/-- The cascade as amended to match the code: a JSON parse attempt counts when
it yields a non-empty CODE (its message is then returned even when empty, so
the result can be the empty string); the wrapped form is still preferred and
the regex fallback (with its raw-token degradation when unquoting fails and
its final `"UNAVAILABLE"`) is consulted only when neither parse yields a
non-empty code. -/
def extractErrorMessageAmendedSpec (o : JsonOracle) (bodyBytes : String) : String :=
  let wrappedMsg : Option String :=
    match o.unmarshalWrapped bodyBytes with
    | some w => if w.error.code = "" then none else some (jsonUnescaperReplace w.error.message)
    | none => none
  let unwrappedMsg : Option String :=
    match o.unmarshalUnwrapped bodyBytes with
    | some u => if u.code = "" then none else some (jsonUnescaperReplace u.message)
    | none => none
  let regexMsg : Option String :=
    match o.regexFindMessageToken bodyBytes with
    | some tok =>
      match o.unquote tok with
      | some unquoted => some (jsonUnescaperReplace unquoted)
      | none => some tok
    | none => none
  (wrappedMsg.orElse fun _ => unwrappedMsg.orElse fun _ => regexMsg).getD "UNAVAILABLE"

/-- The body bytes `{"error":{"code":"SomeCode"}}` (braces written as hex
escapes): a well-formed wrapped envelope that declares a code but no
message. -/
def c6CexBody : String := "\x7b\"error\":\x7b\"code\":\"SomeCode\"\x7d\x7d"

/-- What the Go standard library does on `c6CexBody`:
`json.Unmarshal` into the wrapped shape succeeds with
`Error.Code = "SomeCode"` and `Error.Message = ""` (no `message` key);
into the unwrapped shape it succeeds with `Code = ""` and `Message = ""`
(the top level has no `code` key; the unknown `error` key is ignored);
the regex finds no `"message"` token in these bytes; `strconv.Unquote` is
never consulted on this input. -/
def c6CexOracle : JsonOracle where
  unmarshalWrapped := fun s => if s = c6CexBody then some ⟨⟨"SomeCode", ""⟩⟩ else none
  unmarshalUnwrapped := fun s => if s = c6CexBody then some ⟨"", ""⟩ else none
  regexFindMessageToken := fun _ => none
  unquote := fun _ => none

/-- An oracle on which every external call fails/misses. -/
def constNoneOracle : JsonOracle where
  unmarshalWrapped := fun _ => none
  unmarshalUnwrapped := fun _ => none
  regexFindMessageToken := fun _ => none
  unquote := fun _ => none

/-- An oracle that differs from `constNoneOracle` on the buffer `"y"` but
agrees with it on the buffer `"x"`. -/
def c7OtherOracle : JsonOracle where
  unmarshalWrapped := fun s => if s = "y" then some ⟨⟨"C", "M"⟩⟩ else none
  unmarshalUnwrapped := fun _ => none
  regexFindMessageToken := fun _ => none
  unquote := fun _ => none

/-! ## Theorems -/

/-- Helper: the two context sentinels are distinct leaves of a linear unwrap
chain, so no error is `errors.Is` both of them. -/
theorem canceled_deadline_exclusive (e : GoError) :
    ¬(errorsIsCanceled e = true ∧ errorsIsDeadlineExceeded e = true) := by
  induction e with
  | contextCanceled => simp [errorsIsCanceled, errorsIsDeadlineExceeded]
  | contextDeadlineExceeded => simp [errorsIsCanceled, errorsIsDeadlineExceeded]
  | responseError re => simp [errorsIsCanceled, errorsIsDeadlineExceeded]
  | simple msg => simp [errorsIsCanceled, errorsIsDeadlineExceeded]
  | wrap msg inner ih => simpa [errorsIsCanceled, errorsIsDeadlineExceeded] using ih

/-- C3: a transport error is classified by its cause, never by string
matching: an error whose unwrap chain reaches `context.Canceled` is coded
`ContextCanceled`, one reaching `context.DeadlineExceeded` is coded
`ContextDeadlineExceeded` (the two are never swapped, being mutually
exclusive causes), and any other error is coded `TransportError`; in every
case the message is the error's own text. -/
theorem parseTransportError_classifies_by_cause (e : GoError) :
    (errorsIsCanceled e = true →
      parseTransportError (some e) = some ⟨ArmErrorCodeContextCanceled, errText e⟩)
    ∧ (errorsIsDeadlineExceeded e = true →
      parseTransportError (some e) = some ⟨ArmErrorCodeContextDeadlineExceeded, errText e⟩)
    ∧ (errorsIsCanceled e = false → errorsIsDeadlineExceeded e = false →
      parseTransportError (some e) = some ⟨ArmErrorCodeTransportError, errText e⟩) := by
  refine ⟨fun h => by simp [parseTransportError, h], fun h => ?_, fun h1 h2 => by
    simp [parseTransportError, h1, h2]⟩
  have hc : errorsIsCanceled e = false := by
    rcases Bool.eq_false_or_eq_true (errorsIsCanceled e) with h' | h'
    · exact absurd ⟨h', h⟩ (canceled_deadline_exclusive e)
    · exact h'
  simp [parseTransportError, hc, h]

/-- Witness for C3 at three concrete errors: a wrap of `context.Canceled`, a
wrap of `context.DeadlineExceeded`, and a plain dial error. -/
theorem parseTransportError_classifies_by_cause_witness :
    parseTransportError (some (.wrap "Get \"https://example\": context canceled"
        .contextCanceled))
      = some ⟨ArmErrorCodeContextCanceled, "Get \"https://example\": context canceled"⟩
    ∧ parseTransportError (some (.wrap "Get \"https://example\": context deadline exceeded"
        .contextDeadlineExceeded))
      = some ⟨ArmErrorCodeContextDeadlineExceeded,
          "Get \"https://example\": context deadline exceeded"⟩
    ∧ parseTransportError (some (.simple "dial tcp 10.0.0.1:443: connection refused"))
      = some ⟨ArmErrorCodeTransportError, "dial tcp 10.0.0.1:443: connection refused"⟩ :=
  ⟨(parseTransportError_classifies_by_cause _).1 (by decide),
   (parseTransportError_classifies_by_cause _).2.1 (by decide),
   (parseTransportError_classifies_by_cause _).2.2 (by decide) (by decide)⟩

/-- C2: `Do` returns exactly the pair the downstream `Next()` produced — on
the instrumented path and on the no-telemetry pass-through path alike — and
when the downstream stage panics, `Do` returns nothing of its own (the panic
keeps unwinding). No policy-internal error ever appears in the return
value. -/
theorem ArmRequestMetricPolicy_Do_returns_downstream_pair
    (p : ArmRequestMetricPolicy) (raw : Option HttpRequest) (next : NextOutcome) :
    (policyDo p raw next).ret = nextReturn next := by
  rcases raw with _ | httpReq
  · rfl
  · rcases hu : httpReq.url with _ | u <;> rcases next with ⟨resp, err⟩ | _ <;>
      simp [policyDo, hu, nextReturn]

/-- C5 counterexample: on a nil response (and nil error) the classifier's code
is the string `"UnexpectedTransportError"`, not `"UnexpectedTransportBehavior"`
as the claim states. -/
theorem parseArmError_nilResponse_counterexample :
    (parseArmErrorFromResponse none).map ArmError.code = some "UnexpectedTransportError"
    ∧ (parseArmErrorFromResponse none).map ArmError.code ≠ some "UnexpectedTransportBehavior" := by
  constructor
  · rfl
  · decide

/-- C5 as amended: when the transport returns no response and no error, the
classifier produces the ArmError `⟨UnexpectedTransportError, "nil response"⟩`,
whose code is drawn from the code's fixed constant taxonomy
(CastToArmResponseErrorFailed, TransportError, UnexpectedTransportError,
ContextCanceled, ContextDeadlineExceeded). -/
theorem parseArmError_nilResponse_unexpectedTransport :
    parseArmErrorFromResponse none
      = some ⟨ArmErrorCodeUnexpectedTransportError, "nil response"⟩
    ∧ ArmErrorCodeUnexpectedTransportError ∈
        [ArmErrorCodeCastToArmResponseErrorFailed, ArmErrorCodeTransportError,
         ArmErrorCodeUnexpectedTransportError, ArmErrorCodeContextCanceled,
         ArmErrorCodeContextDeadlineExceeded] :=
  ⟨rfl, by decide⟩

/-- C8: with a nil collector both notification shortcuts perform no collector
invocation at all, for every argument. -/
theorem requestNotifications_nil_collector_noop (p : ArmRequestMetricPolicy)
    (info : RequestInfo) (respInfo : ResponseInfo) (h : p.collector = none) :
    requestStarted p info = [] ∧ requestCompleted p info respInfo = [] := by
  simp [requestStarted, requestCompleted, h]

/-- Witness for C8 at a concrete nil-collector policy and concrete payloads. -/
theorem requestNotifications_nil_collector_noop_witness :
    requestStarted ⟨none⟩ ⟨⟨none, []⟩, none⟩ = []
    ∧ requestCompleted ⟨none⟩ ⟨⟨none, []⟩, none⟩ ⟨none, none, "", ""⟩ = [] :=
  requestNotifications_nil_collector_noop ⟨none⟩ ⟨⟨none, []⟩, none⟩ ⟨none, none, "", ""⟩ rfl

/-- C10: `IsResponseError` yields nil exactly for a nil error or an error whose
unwrap chain holds no `*azcore.ResponseError`, and whenever it yields nil
every exported classification predicate of the errors package returns false
(rather than panicking — all the predicates are total functions). -/
theorem classification_predicates_total (err : Option GoError) :
    (IsResponseError err = none ↔
      (err = none ∨ ∃ e, err = some e ∧ errorsAsResponseError e = none))
    ∧ (IsResponseError err = none →
      IsNotFoundErr err = false
      ∧ ZonalAllocationFailureOccurred err = false
      ∧ AllocationFailureOccurred err = false
      ∧ OverconstrainedAllocationFailureOccurred err = false
      ∧ OverconstrainedZonalAllocationFailureOccurred err = false
      ∧ SKUFamilyQuotaHasBeenReached err = false
      ∧ SubscriptionQuotaHasBeenReached err = false
      ∧ RegionalQuotaHasBeenReached err = false
      ∧ LowPriorityQuotaHasBeenReached err = false
      ∧ IsNicReservedForAnotherVM err = false
      ∧ IsSKUNotAvailable err = false) := by
  constructor
  · rcases err with _ | e <;> simp [IsResponseError]
  · intro h
    refine ⟨?_, ?_, ?_, ?_, ?_, ?_, ?_, ?_, ?_, ?_, ?_⟩ <;>
      simp [IsNotFoundErr, ZonalAllocationFailureOccurred, AllocationFailureOccurred,
        OverconstrainedAllocationFailureOccurred,
        OverconstrainedZonalAllocationFailureOccurred, SKUFamilyQuotaHasBeenReached,
        SubscriptionQuotaHasBeenReached, RegionalQuotaHasBeenReached,
        LowPriorityQuotaHasBeenReached, IsNicReservedForAnotherVM, IsSKUNotAvailable, h]

/-- Witness for C10 at the nil error and at a concrete non-ResponseError
error. -/
theorem classification_predicates_total_witness :
    IsNotFoundErr none = false
    ∧ IsSKUNotAvailable none = false
    ∧ ZonalAllocationFailureOccurred (some (.simple "boom")) = false
    ∧ SKUFamilyQuotaHasBeenReached (some (.wrap "ctx: boom" (.simple "boom"))) = false :=
  ⟨((classification_predicates_total none).2 rfl).1,
   ((classification_predicates_total none).2 rfl).2.2.2.2.2.2.2.2.2.2,
   ((classification_predicates_total (some (.simple "boom"))).2 rfl).2.1,
   ((classification_predicates_total (some (.wrap "ctx: boom" (.simple "boom")))).2
      rfl).2.2.2.2.2.1⟩

/-- C1: on a request with a non-nil raw request and URL, one `Do` invocation
with a collector attached issues exactly one RequestStarted invocation
followed by exactly one RequestCompleted invocation — for every downstream
outcome: an error, a nil response, or a panic unwinding through the deferred
finalization. (With a nil collector both notifications are no-ops; see the
nil-collector theorem.) -/
theorem ArmRequestMetricPolicy_Do_started_completed_once
    (p : ArmRequestMetricPolicy) (httpReq : HttpRequest) (u : Url) (next : NextOutcome)
    (hurl : httpReq.url = some u) (hc : p.collector.isSome = true) :
    ∃ info respInfo,
      (policyDo p (some httpReq) next).events
        = [.started info, .completed info respInfo] := by
  rcases p with ⟨_ | ⟨⟩⟩
  · simp at hc
  · rcases next with ⟨resp, err⟩ | _
    · exact ⟨⟨httpReq, parseResourceID u.path⟩, deferredResponseInfo resp err,
        by simp [policyDo, hurl, requestStarted, requestCompleted]⟩
    · exact ⟨⟨httpReq, parseResourceID u.path⟩, deferredResponseInfo none none,
        by simp [policyDo, hurl, requestStarted, requestCompleted]⟩

/-- Witness for C1: a concrete policy with a collector, a concrete request,
and a panicking downstream stage. -/
theorem ArmRequestMetricPolicy_Do_started_completed_once_witness :
    ∃ info respInfo,
      (policyDo ⟨some ()⟩ (some ⟨some ⟨"/healthz"⟩, []⟩) .panicked).events
        = [.started info, .completed info respInfo] :=
  ArmRequestMetricPolicy_Do_started_completed_once
    ⟨some ()⟩ ⟨some ⟨"/healthz"⟩, []⟩ ⟨"/healthz"⟩ .panicked rfl rfl

/-- Helper: the header-extraction step of the deferred finalization never
touches the `error` field. -/
theorem deferredResponseInfo_error (resp : Option Response) (reqErr : Option GoError) :
    (deferredResponseInfo resp reqErr).error =
      if reqErr.isSome then parseTransportError reqErr else parseArmErrorFromResponse resp := by
  rcases reqErr with _ | e <;> rcases resp with _ | ⟨sc, _ | boundReq, nre⟩ <;> rfl

/-- Helper: the transport classifier never returns nil on a non-nil error. -/
theorem parseTransportError_some_ne_none (e : GoError) :
    parseTransportError (some e) ≠ none := by
  simp only [parseTransportError]
  split
  · simp
  · split <;> simp

/-- C4: the ArmError placed in the `ResponseInfo` built by `Do`'s deferred
finalization (the one handed to RequestCompleted) is nil exactly when the
attempt succeeded: response present, status below 400, no transport error.
In particular every response with status ≥ 400 yields a non-nil ArmError, and
when the external `runtime.NewResponseError` result is not castable to a
`*azcore.ResponseError` (e.g. a malformed, non-JSON body made azcore hand
back something else) the ArmError carries the cast-failure code together
with a non-empty diagnostic message — never nil, and (being a total
function) never a crash. -/
theorem responseInfo_error_none_iff_success :
    (∀ (resp : Option Response) (reqErr : Option GoError),
      (deferredResponseInfo resp reqErr).error = none ↔
        reqErr = none ∧ ∃ r, resp = some r ∧ r.statusCode ≤ 399)
    ∧ (∀ r : Response, 399 < r.statusCode →
        (deferredResponseInfo (some r) none).error ≠ none)
    ∧ (∀ r : Response, 399 < r.statusCode →
        errorsAsResponseError r.newRespError = none →
        ∃ m, (deferredResponseInfo (some r) none).error
            = some ⟨ArmErrorCodeCastToArmResponseErrorFailed, m⟩ ∧ m ≠ "") := by
  have herr := deferredResponseInfo_error
  refine ⟨fun resp reqErr => ?_, fun r hr => ?_, fun r hr hcast => ?_⟩
  · rw [herr]
    rcases reqErr with _ | e
    · simp only [Option.isSome_none, Bool.false_eq_true, if_false]
      rcases resp with _ | r
      · simp [parseArmErrorFromResponse]
      · by_cases hsc : 399 < r.statusCode
        · simp only [parseArmErrorFromResponse, hsc, if_true]
          constructor
          · intro hco; exfalso; revert hco; split <;> simp
          · rintro ⟨-, r', hr', hle⟩
            cases hr'
            omega
        · simp only [parseArmErrorFromResponse, hsc, if_false]
          simp
          omega
    · simp only [Option.isSome_some, if_true]
      have := parseTransportError_some_ne_none e
      simp_all
  · rw [herr]
    simp only [Option.isSome_none, Bool.false_eq_true, if_false,
      parseArmErrorFromResponse, hr, if_true]
    split <;> simp
  · rw [herr]
    simp only [Option.isSome_none, Bool.false_eq_true, if_false,
      parseArmErrorFromResponse, hr, if_true, hcast]
    refine ⟨_, rfl, fun hcontra => ?_⟩
    have hlen := congrArg String.length hcontra
    rw [String.length_append] at hlen
    have : (0 : Nat) <
        ("Response body is not in ARM error form: \x7berror:\x7bcode, message\x7d\x7d: ").length := by
      decide
    simp at hlen
    omega

/-- Witness for C4: a concrete 500 response whose azcore error is not castable
(modelling a malformed body) yields the cast-failure ArmError with a
non-empty message. -/
theorem responseInfo_error_none_iff_success_witness :
    ∃ m, (deferredResponseInfo
        (some ⟨500, none, .simple "unexpected end of JSON input"⟩) none).error
      = some ⟨ArmErrorCodeCastToArmResponseErrorFailed, m⟩ ∧ m ≠ "" :=
  responseInfo_error_none_iff_success.2.2
    ⟨500, none, .simple "unexpected end of JSON input"⟩ (by decide) rfl

/-- C6 counterexample: on the body bytes `{"error":{"code":"SomeCode"}}` —
where the wrapped parse succeeds with a non-empty code but an empty message,
the unwrapped parse yields no code, and the regex finds no message token —
the code returns the empty string (it accepts a JSON parse on a non-empty
CODE), while the cascade as the claim words it (accept only on a non-empty
MESSAGE) would return `"UNAVAILABLE"`. -/
theorem extractErrorMessage_gate_counterexample :
    extractErrorMessageFromBytes c6CexOracle c6CexBody = ""
    ∧ extractErrorMessageClaimed c6CexOracle c6CexBody = "UNAVAILABLE"
    ∧ extractErrorMessageFromBytes c6CexOracle c6CexBody
        ≠ extractErrorMessageClaimed c6CexOracle c6CexBody := by
  refine ⟨by decide, by decide, by decide⟩

/-- C6 as amended: the extraction cascade equals, for every oracle of external
json/regex/unquote behaviours and every body buffer, the layered cascade
that (1) prefers the wrapped envelope over the unwrapped one, accepting a
JSON parse when it yields a non-empty code (returning its message, possibly
empty, with newline/tab/carriage-return characters normalized to spaces),
(2) otherwise scrapes a `"message":"..."` token by regex, unquoting it
(degrading to the raw quoted token when unquoting fails) and normalizing,
and (3) returns exactly `"UNAVAILABLE"` when even that fails. -/
theorem extractErrorMessage_cascade_amended (o : JsonOracle) (s : String) :
    extractErrorMessageFromBytes o s = extractErrorMessageAmendedSpec o s := by
  unfold extractErrorMessageFromBytes extractErrorMessageAmendedSpec
  cases hw : o.unmarshalWrapped s <;> cases hu : o.unmarshalUnwrapped s <;>
    cases hr : o.regexFindMessageToken s <;> simp only [] <;>
    (try split) <;> (try split) <;> (try split) <;> simp_all [Option.orElse]

/-- C7: the response body stream is consumed at most once per extraction call
(zero reads when the raw response or body is absent, exactly one `io.ReadAll`
otherwise), and the result on buffered bytes `s` depends on the external
json/regex behaviours only at that same buffer `s` — the wrapped attempt,
the unwrapped attempt and the regex fallback all operate on the one buffer
rather than re-reading the stream. -/
theorem extractErrorMessage_single_read :
    (∀ (o : JsonOracle) (raw : Option RawBody), (extractErrorMessage o raw).2 ≤ 1)
    ∧ (∀ (o o' : JsonOracle) (s : String),
        o.unmarshalWrapped s = o'.unmarshalWrapped s →
        o.unmarshalUnwrapped s = o'.unmarshalUnwrapped s →
        o.regexFindMessageToken s = o'.regexFindMessageToken s →
        o.unquote = o'.unquote →
        extractErrorMessage o (some (.bytes s)) = extractErrorMessage o' (some (.bytes s))) := by
  constructor
  · rintro o (_ | (_ | _ | s)) <;> simp [extractErrorMessage]
  · intro o o' s h1 h2 h3 h4
    simp only [extractErrorMessage, extractErrorMessageFromBytes, h1, h2, h3, h4]

/-- Witness for C7: two concrete oracles that agree on the buffer `"x"` (but
differ on `"y"`) give the same extraction result on `"x"`, and a concrete
failing read performs exactly one read. -/
theorem extractErrorMessage_single_read_witness :
    extractErrorMessage constNoneOracle (some (.bytes "x"))
      = extractErrorMessage c7OtherOracle (some (.bytes "x"))
    ∧ (extractErrorMessage constNoneOracle (some .readFails)).2 ≤ 1 :=
  ⟨extractErrorMessage_single_read.2 constNoneOracle c7OtherOracle "x"
      (by decide) rfl rfl rfl,
   extractErrorMessage_single_read.1 constNoneOracle (some .readFails)⟩

end AzExt
